import Mathlib

/-!
Shallow embedding of the slide-ingestion service
(src/app/controllers/slide_controller.py, src/app/utils.py,
src/app/database.py, src/app/schemas/slide.py).

External collaborators (the Google embedding API, the Pinecone client, the
document-parsing libraries, the filesystem and the clock) are modelled as
explicit oracle parameters; the control flow of the repository's own
functions is translated directly.  Calls into the vector store are
instrumented: each function additionally returns the trace of store
operations it performed, so that claims about what is (never) written can
be stated.
-/

/-- Schema `SlideCreate` (src/app/schemas/slide.py): the per-request slide
metadata.  `file_content`, `file_name` and `content_type` of the Pydantic
model are carried by the separate upload-file record below. -/
structure SlideCreate where
  slide_name : String
  course_name : String
  subject_name : String
  description : Option String
deriving DecidableEq

/-- The relevant attributes of a FastAPI `UploadFile`: its filename, its
declared content type and its size in bytes (the controller obtains the
size by seeking to the end of the underlying file object). -/
structure UploadFileMeta where
  filename : String
  content_type : Option String
  size : Nat
deriving DecidableEq

/-- A langchain `Document`: extraction and chunking operate on records
holding a `page_content` text. -/
structure Document where
  page_content : String
deriving DecidableEq

/-- Schema `Slide` (src/app/schemas/slide.py). -/
structure Slide where
  id : String
  slide_name : String
  course_name : String
  subject_name : String
  description : Option String
  created_at : String
  updated_at : String
  file_name : String
  content_type : String
deriving DecidableEq

/-- Schema `SlideInDB` (src/app/schemas/slide.py) together with the chunk
metadata the controller adds (`chunk_index`, `total_chunks`); this is the
record built for each processed chunk in `upload_slide`. -/
structure SlideInDB where
  id : String
  slide_name : String
  course_name : String
  subject_name : String
  description : String
  created_at : String
  updated_at : String
  file_name : String
  content_type : String
  chunk_index : Nat
  total_chunks : Nat
  vector_id : String
  embedding : List Float

/-- The distinct `detail` payloads of the `HTTPException`s raised in
src/app/controllers/slide_controller.py.  Each constructor stands for one
of the (f-)string messages of the source; dynamic parts of a message are
carried as arguments. -/
inductive ErrDetail
  /-- "No file provided or invalid file" -/
  | noFileProvided
  /-- "File is empty" -/
  | fileEmpty
  /-- "File size (...) exceeds maximum allowed size of 10MB", carrying the
  offending size in bytes -/
  | fileTooLarge (size : Nat)
  /-- "An error occurred while processing the file: ..." -/
  | processingError (msg : String)
  /-- "No valid content could be extracted from the file. ..." -/
  | noContentExtracted
  /-- "No valid text content could be extracted from the file." -/
  | noValidText
  /-- "No slide data provided" -/
  | noSlideData
  /-- "No file provided" -/
  | noFile
  /-- "Slide name, course name, and subject name are required" -/
  | missingRequiredFields
  /-- "Failed to initialize text embeddings: ...", carrying the observed
  test-embedding dimension when the failure is the dimension check -/
  | embedInitFailure (dim : Option Nat)
  /-- "Failed to process any valid chunks from the file. ..." -/
  | noChunksProcessed
  /-- "Slide not found" -/
  | slideNotFound
deriving DecidableEq

/-- An `HTTPException`: a status code and a detail message. -/
structure HttpError where
  status_code : Nat
  detail : ErrDetail
deriving DecidableEq

/-- Python's `str.strip()`: remove leading and trailing whitespace.
Stated over the character data so that it is structurally computable. -/
def pyStrip (s : String) : String :=
  String.mk
    (((s.data.dropWhile Char.isWhitespace).reverse.dropWhile
      Char.isWhitespace).reverse)

/-- `MAX_FILE_SIZE` (src/app/controllers/slide_controller.py line 19). -/
def MAX_FILE_SIZE : Nat := 10 * 1024 * 1024

/-- `EMBEDDING_DIMENSION` (src/app/database.py line 54). -/
def EMBEDDING_DIMENSION : Nat := 768

/-- `process_file_chunks` (src/app/controllers/slide_controller.py lines
21-74).  The outcome of the call to `utils.process_uploaded_file` is the
oracle `extract` (an exception there is caught and converted to a 500
error).  The returned boolean records whether extraction was reached, i.e.
whether `utils.process_uploaded_file` was invoked at all. -/
def process_file_chunks (file : Option UploadFileMeta)
    (extract : Except String (List Document)) :
    Except HttpError (List Document) × Bool :=
  match file with
  | none => (.error ⟨400, .noFileProvided⟩, false)
  | some f =>
    if f.filename = "" then (.error ⟨400, .noFileProvided⟩, false)
    else if f.size = 0 then (.error ⟨400, .fileEmpty⟩, false)
    else if MAX_FILE_SIZE < f.size then (.error ⟨400, .fileTooLarge f.size⟩, false)
    else
      match extract with
      | .error msg => (.error ⟨500, .processingError msg⟩, true)
      | .ok chunks =>
        if chunks = [] then (.error ⟨400, .noContentExtracted⟩, true)
        else
          let valid := chunks.filter (fun c => pyStrip c.page_content != "")
          if valid = [] then (.error ⟨400, .noValidText⟩, true)
          else (.ok valid, true)

/-- `SUPPORTED_FILE_TYPES` (src/app/utils.py lines 28-37): MIME type to
extension. -/
def SUPPORTED_FILE_TYPES : List (String × String) :=
  [("application/pdf", ".pdf"),
   ("application/vnd.openxmlformats-officedocument.wordprocessingml.document", ".docx"),
   ("application/vnd.openxmlformats-officedocument.presentationml.presentation", ".pptx"),
   ("application/vnd.openxmlformats-officedocument.spreadsheetml.sheet", ".xlsx"),
   ("application/msword", ".doc"),
   ("application/vnd.ms-powerpoint", ".ppt"),
   ("application/vnd.ms-excel", ".xls"),
   ("text/plain", ".txt")]

/-- `get_file_extension` (src/app/utils.py lines 39-43).  The `magic`
MIME sniffing is external; the function is parameterised by the sniffed
MIME type of the file and performs the dictionary lookup of the source. -/
def get_file_extension (sniffed_mime : String) : Option String :=
  SUPPORTED_FILE_TYPES.lookup sniffed_mime

/-- The extension allowlist of the fallback check in `load_document`
(src/app/utils.py line 64). -/
def FALLBACK_EXTENSIONS : List String :=
  [".pdf", ".docx", ".doc", ".pptx", ".ppt", ".xlsx", ".xls", ".txt"]

/-- The outcomes of the per-type parsing libraries (pypdf, docx2python,
python-pptx, openpyxl, plain-text read): each either extracts a text or
raises. -/
structure Parsers where
  pdf : Except String String
  docx : Except String String
  pptx : Except String String
  xlsx : Except String String
  txt : Except String String

/-- Errors raised by `load_document`: the explicit `ValueError` for an
unsupported file type, or a propagated parser exception. -/
inductive LoadError
  /-- "Unsupported file type: ..." -/
  | unsupportedFileType (file_path : String)
  /-- an exception propagated from a parsing library -/
  | parserFailure (msg : String)
deriving DecidableEq

/-- The parser dispatch of `load_document` (src/app/utils.py lines 69-105):
the branch taken for a given resolved extension, each wrapping the
extracted text into a single `Document`. -/
def dispatchByExt (p : Parsers) (file_ext : String) :
    Except LoadError (List Document) :=
  if file_ext = ".pdf" then
    (p.pdf.map (fun t => [⟨t⟩])).mapError .parserFailure
  else if file_ext = ".docx" ∨ file_ext = ".doc" then
    (p.docx.map (fun t => [⟨t⟩])).mapError .parserFailure
  else if file_ext = ".pptx" ∨ file_ext = ".ppt" then
    (p.pptx.map (fun t => [⟨t⟩])).mapError .parserFailure
  else if file_ext = ".xlsx" ∨ file_ext = ".xls" then
    (p.xlsx.map (fun t => [⟨t⟩])).mapError .parserFailure
  else
    (p.txt.map (fun t => [⟨t⟩])).mapError .parserFailure

/-- `load_document` (src/app/utils.py lines 56-109).  `sniffed_mime` is
the MIME type reported by `magic` for the file, `path_ext` is
`os.path.splitext(file_path)[1]`; both are oracles for external lookups
on `file_path`. -/
def load_document (p : Parsers) (file_path : String)
    (sniffed_mime : String) (path_ext : String) :
    Except LoadError (List Document) :=
  match get_file_extension sniffed_mime with
  | some ext => dispatchByExt p ext
  | none =>
    let fext := path_ext.toLower
    if fext = "" ∨ fext ∉ FALLBACK_EXTENSIONS then
      .error (.unsupportedFileType file_path)
    else
      dispatchByExt p fext

/-- `get_slides` (src/app/controllers/slide_controller.py lines 225-237):
the body ignores all four parameters and returns the empty list. -/
def get_slides (course_name subject_name : Option String)
    (limit : Nat := 10) (offset : Nat := 0) : List Slide :=
  []

/-- `get_slide` (src/app/controllers/slide_controller.py lines 239-248):
the body unconditionally raises `HTTPException(404, "Slide not found")`,
which the surrounding handler re-raises unchanged. -/
def get_slide (slide_id : String) : Except HttpError SlideInDB :=
  .error ⟨404, .slideNotFound⟩

/-- A vector handed to `pinecone_index.upsert`: its id and its values (the
accompanying metadata dict holds the same fields as the corresponding
`SlideInDB` record). -/
structure PineconeVector where
  id : String
  values : List Float

/-- The `SlideInDB` record built for chunk `i` of `total` in the loop of
`upload_slide` (src/app/controllers/slide_controller.py lines 162-195):
the metadata dict plus id, vector id and embedding. -/
def mkChunkSlide (sd : SlideCreate) (f : UploadFileMeta) (chunk_id : String)
    (emb : List Float) (t : String) (i total : Nat) : SlideInDB :=
  { id := chunk_id
    slide_name := sd.slide_name ++ " (Part " ++ toString (i + 1) ++ ")"
    course_name := sd.course_name
    subject_name := sd.subject_name
    description := sd.description.getD "" ++ " [Part " ++ toString (i + 1)
      ++ " of " ++ toString total ++ "]"
    created_at := t
    updated_at := t
    file_name := f.filename
    content_type := f.content_type.getD "application/octet-stream"
    chunk_index := i
    total_chunks := total
    vector_id := chunk_id
    embedding := emb }

/-- Output of the per-chunk loop of `upload_slide`: the accumulated
`results`, the trace of vectors upserted into Pinecone, and the trace of
texts sent to `embed_documents`. -/
structure LoopOut where
  results : List SlideInDB
  upserts : List PineconeVector
  embedCalls : List String

/-- The `for i, chunk in enumerate(chunks)` loop of `upload_slide`
(src/app/controllers/slide_controller.py lines 146-205).  Oracles:
`embedFn` is `doc_embeddings.embed_documents([text])[0]`, `uuidGen i` is
the value of the `utils.generate_slide_id()` call of iteration `i`,
`upsertOk i` tells whether the Pinecone upsert of iteration `i` succeeds,
and `timeFn i` is `datetime.utcnow().isoformat()` at iteration `i`.  A
chunk whose embedding or upsert fails is skipped (`continue`). -/
def uploadChunks (sd : SlideCreate) (f : UploadFileMeta)
    (embedFn : String → Except String (List Float))
    (uuidGen : Nat → String) (upsertOk : Nat → Bool)
    (timeFn : Nat → String) (total : Nat) :
    Nat → List Document → LoopOut
  | _, [] => ⟨[], [], []⟩
  | i, c :: rest =>
    let r := uploadChunks sd f embedFn uuidGen upsertOk timeFn total (i + 1) rest
    if pyStrip c.page_content = "" then r
    else
      let chunk_id := uuidGen i ++ "_" ++ toString i
      match embedFn c.page_content with
      | .error _ => ⟨r.results, r.upserts, c.page_content :: r.embedCalls⟩
      | .ok emb =>
        if upsertOk i then
          ⟨mkChunkSlide sd f chunk_id emb (timeFn i) i total :: r.results,
           ⟨chunk_id, emb⟩ :: r.upserts,
           c.page_content :: r.embedCalls⟩
        else
          ⟨r.results, r.upserts, c.page_content :: r.embedCalls⟩

/-- Instrumented outcome of `upload_slide`: the HTTP result plus the
traces of Pinecone upserts and embedding calls performed. -/
structure UploadOut where
  result : Except HttpError (List SlideInDB)
  upserts : List PineconeVector
  embedCalls : List String

/-- `upload_slide` (src/app/controllers/slide_controller.py lines 76-223).
`extract` is the outcome of `utils.process_uploaded_file`; the dimension
probe `embed_documents(["test"])[0]` goes through the same `embedFn`
oracle as the per-chunk embeddings; the remaining oracles are as in
`uploadChunks`. -/
def upload_slide (slide_data : Option SlideCreate)
    (file : Option UploadFileMeta)
    (extract : Except String (List Document))
    (embedFn : String → Except String (List Float))
    (uuidGen : Nat → String) (upsertOk : Nat → Bool)
    (timeFn : Nat → String) : UploadOut :=
  match slide_data with
  | none => ⟨.error ⟨400, .noSlideData⟩, [], []⟩
  | some sd =>
    match file with
    | none => ⟨.error ⟨400, .noFile⟩, [], []⟩
    | some f =>
      if sd.slide_name = "" ∨ sd.course_name = "" ∨ sd.subject_name = "" then
        ⟨.error ⟨400, .missingRequiredFields⟩, [], []⟩
      else
        match (process_file_chunks (some f) extract).1 with
        | .error e => ⟨.error e, [], []⟩
        | .ok chunks =>
          if chunks = [] then
            ⟨.error ⟨400, .noContentExtracted⟩, [], []⟩
          else
            match embedFn "test" with
            | .error _ => ⟨.error ⟨500, .embedInitFailure none⟩, [], ["test"]⟩
            | .ok testEmb =>
              if testEmb.length ≠ EMBEDDING_DIMENSION then
                ⟨.error ⟨500, .embedInitFailure (some testEmb.length)⟩, [], ["test"]⟩
              else
                let out := uploadChunks sd f embedFn uuidGen upsertOk timeFn
                  chunks.length 0 chunks
                if out.results.isEmpty then
                  ⟨.error ⟨400, .noChunksProcessed⟩, out.upserts,
                   "test" :: out.embedCalls⟩
                else
                  ⟨.ok out.results, out.upserts, "test" :: out.embedCalls⟩

/-- Modelled from the spec: the splitter used by `chunk_documents` is
langchain's `RecursiveCharacterTextSplitter`, external library code not
part of this repository.  The spec describes its effect as "splitting a
document's extracted text into fixed-size overlapping windows" measured
in characters by `len`: successive windows of at most `size` characters,
each next window starting `step = size - overlap` characters after the
previous one.  A degenerate `step = 0` is guarded to keep the function
total; the repository only ever uses `size = 1000`, `step = 800`. -/
def splitWindows (size step : Nat) (s : List Char) : List (List Char) :=
  if s.isEmpty then []
  else if s.length ≤ size ∨ step = 0 then [s]
  else s.take size :: splitWindows size step (s.drop step)
termination_by s.length
decreasing_by
  rename_i h1 h2
  simp only [not_or, Nat.not_le] at h2
  simp only [List.length_drop]
  omega

/-- `chunk_documents` (src/app/utils.py lines 111-120): split each
document's text with the configured chunk size and overlap (defaults
1000 and 200). -/
def chunk_documents (documents : List Document)
    (chunk_size : Nat := 1000) (chunk_overlap : Nat := 200) :
    List Document :=
  documents.flatMap fun d =>
    (splitWindows chunk_size (chunk_size - chunk_overlap)
      d.page_content.data).map fun cs => ⟨String.mk cs⟩

/-- `save_upload_file` (src/app/utils.py lines 45-54): write the upload
into a fresh temporary file.  The filesystem is the list `fs` of existing
temporary paths and `tmpName` is the fresh name chosen by
`tempfile.NamedTemporaryFile(delete=False)`, which creates the file on
disk before `tmp.write(upload_file.file.read())` runs; `writeOk` tells
whether that read-and-write succeeds.  On failure the exception
propagates (after the error is logged) while the created file remains,
so the filesystem contains the new file in either case. -/
def save_upload_file (fs : List String) (tmpName : String)
    (writeOk : Bool) : Except String String × List String :=
  if writeOk then (.ok tmpName, fs ++ [tmpName])
  else (.error "save failed", fs ++ [tmpName])

/-- `process_uploaded_file` (src/app/utils.py lines 122-169): save the
upload to a temporary file, load it, chunk it.  When `save_upload_file`
raises, `temp_file_path` was never assigned (utils.py line 133), so the
`finally` block does not touch the created file.  Otherwise the
`finally` block unlinks the saved path when it exists, but catches and
swallows a failing `os.unlink` (utils.py lines 164-169); `unlinkOk`
tells whether the unlink succeeds.  Returns the outcome together with
the final filesystem.  `savedSize` is `os.path.getsize` of the saved
file and `loadRes` the outcome of `load_document` on it. -/
def process_uploaded_file (upload : Option UploadFileMeta)
    (fs : List String) (tmpName : String) (saveOk unlinkOk : Bool)
    (savedSize : Nat) (loadRes : Except String (List Document)) :
    Except String (List Document) × List String :=
  match upload with
  | none => (.error "No file was uploaded", fs)
  | some u =>
    if u.filename = "" then (.error "No file was uploaded", fs)
    else
      match save_upload_file fs tmpName saveOk with
      | (.error e, fs1) => (.error e, fs1)
      | (.ok path, fs1) =>
        let cleanup := fun (l : List String) =>
          if path ∈ l then (if unlinkOk then l.erase path else l) else l
        if savedSize = 0 then
          (.error "Uploaded file is empty", cleanup fs1)
        else
          match loadRes with
          | .error m => (.error m, cleanup fs1)
          | .ok docs =>
            if docs = [] then
              (.error "No content could be extracted from the file", cleanup fs1)
            else
              let chunks := chunk_documents docs 1000 200
              if chunks = [] then
                (.error "No chunks could be created from the document", cleanup fs1)
              else
                (.ok chunks, cleanup fs1)

/-- The operations the service can issue against the Pinecone client, as
an effect trace. -/
inductive StoreOp
  | listIndexes
  | describeIndexStats (index_name : String)
  | deleteIndex (index_name : String)
  | createIndex (index_name : String) (dimension : Nat) (metric : String)
  | upsertVector (id : String)
  | queryIndex (top_k : Nat)
deriving DecidableEq

/-- The environment `get_pinecone_index` runs against: the API key, the
configured index name, whether an index of that name already exists, the
outcome of `describe_index_stats` (the reported dimension), and whether
index creation succeeds in each region. -/
structure PineconeEnv where
  api_key : Option String
  index_name : String
  index_exists : Bool
  stats : Except String Nat
  create_aws_ok : Bool
  create_gcp_ok : Bool

/-- `get_pinecone_index` (src/app/database.py lines 56-145) on a fresh
module state (no cached client or index), as the trace of Pinecone
operations it issues, together with its outcome.  `init_db` verifies the
connection with `list_indexes`; the function lists indexes again, and if
the index exists checks its dimension via `describe_index_stats`,
deleting the index when the reported dimension differs from
`EMBEDDING_DIMENSION` (the create branch of the `else` is not re-entered
after that deletion); if the index does not exist it is created, first in
AWS us-east-1, then falling back to GCP us-central1. -/
def get_pinecone_index (env : PineconeEnv) :
    Except String Unit × List StoreOp :=
  match env.api_key with
  | none => (.error "Failed to initialize database connection", [])
  | some _ =>
    let initOps := [StoreOp.listIndexes]
    let ops := initOps ++ [StoreOp.listIndexes]
    if env.index_exists then
      let ops := ops ++ [StoreOp.describeIndexStats env.index_name]
      match env.stats with
      | .ok dim =>
        if dim ≠ EMBEDDING_DIMENSION then
          (.ok (), ops ++ [StoreOp.deleteIndex env.index_name])
        else
          (.ok (), ops)
      | .error _ => (.ok (), ops)
    else
      let ops := ops ++
        [StoreOp.createIndex env.index_name EMBEDDING_DIMENSION "cosine"]
      if env.create_aws_ok then (.ok (), ops)
      else
        let ops := ops ++
          [StoreOp.createIndex env.index_name EMBEDDING_DIMENSION "cosine"]
        if env.create_gcp_ok then (.ok (), ops)
        else (.error "Failed to create Pinecone index", ops)

/-- Helper: a parser outcome wrapped by `dispatchByExt` is never the
unsupported-file-type error. -/
theorem wrapped_parser_ne_unsupported (x : Except String String) (q : String) :
    Except.mapError LoadError.parserFailure
      (x.map (fun t => ([⟨t⟩] : List Document))) ≠
      .error (.unsupportedFileType q) := by
  cases x <;> simp [Except.map, Except.mapError]

/-- Helper: `dispatchByExt` never raises the unsupported-file-type
error, whatever branch is taken. -/
theorem dispatchByExt_ne_unsupported (p : Parsers) (e q : String) :
    dispatchByExt p e ≠ .error (.unsupportedFileType q) := by
  unfold dispatchByExt
  repeat' split
  all_goals apply wrapped_parser_ne_unsupported

/-- C9: for every combination of course name, subject name, limit and
offset, `get_slides` returns the empty list; it never returns any stored
slide. -/
theorem get_slides_always_empty (course_name subject_name : Option String)
    (limit offset : Nat) :
    get_slides course_name subject_name limit offset = [] := rfl

/-- Witness for C9 at a concrete input. -/
theorem get_slides_always_empty_witness :
    get_slides (some "math") (some "algebra") 10 0 = [] :=
  get_slides_always_empty (some "math") (some "algebra") 10 0

/-- C10: for every slide id, `get_slide` raises HTTP 404 "Slide not
found"; it never returns a slide. -/
theorem get_slide_always_404 (slide_id : String) :
    get_slide slide_id = .error ⟨404, .slideNotFound⟩ := rfl

/-- Witness for C10 at a concrete input. -/
theorem get_slide_always_404_witness :
    get_slide "abc_0" = .error ⟨404, .slideNotFound⟩ :=
  get_slide_always_404 "abc_0"

/-- C2: `process_file_chunks` rejects a named, oversized file with HTTP
400 without invoking extraction (the flag is `false`), where the cap is
`MAX_FILE_SIZE = 10 * 1024 * 1024` bytes; and a file at or below the cap
is never rejected by the size check, whatever the extraction outcome. -/
theorem process_file_chunks_size_cap (f : UploadFileMeta)
    (extract : Except String (List Document)) (hname : f.filename ≠ "") :
    MAX_FILE_SIZE = 10 * 1024 * 1024 ∧
    (MAX_FILE_SIZE < f.size →
      process_file_chunks (some f) extract =
        (.error ⟨400, .fileTooLarge f.size⟩, false)) ∧
    (f.size ≤ MAX_FILE_SIZE →
      ∀ s, (process_file_chunks (some f) extract).1 ≠
        .error ⟨400, .fileTooLarge s⟩) := by
  refine ⟨rfl, ?_, ?_⟩
  · intro h
    have h0 : ¬ f.size = 0 := by
      unfold MAX_FILE_SIZE at h
      omega
    simp [process_file_chunks, hname, h0, h]
  · intro hle s
    have hnlt : ¬ MAX_FILE_SIZE < f.size := not_lt.mpr hle
    unfold process_file_chunks
    by_cases h0 : f.size = 0
    · simp [hname, h0]
    · simp only [if_neg hname, if_neg h0, if_neg hnlt]
      cases extract with
      | error m => simp
      | ok chunks =>
        by_cases hc : chunks = []
        · simp [hc]
        · simp only [if_neg hc]
          by_cases hv :
              chunks.filter (fun c => pyStrip c.page_content != "") = []
          · simp [hv]
          · simp [hv]

/-- Witness for C2: a 20 MB file is rejected by the size check. -/
theorem process_file_chunks_size_cap_witness :
    MAX_FILE_SIZE = 10 * 1024 * 1024 ∧
    (MAX_FILE_SIZE < 20000000 →
      process_file_chunks (some ⟨"a.txt", none, 20000000⟩) (.ok []) =
        (.error ⟨400, .fileTooLarge 20000000⟩, false)) ∧
    (20000000 ≤ MAX_FILE_SIZE →
      ∀ s, (process_file_chunks (some ⟨"a.txt", none, 20000000⟩) (.ok [])).1 ≠
        .error ⟨400, .fileTooLarge s⟩) :=
  process_file_chunks_size_cap ⟨"a.txt", none, 20000000⟩ (.ok [])
    (by decide)

/-- C3: `load_document` rejects a file whose sniffed MIME type is
unsupported and whose (lower-cased) filename extension is outside the
fallback allowlist; when the sniffed MIME type is supported, the file is
dispatched to the parser selected for the mapped extension and the
unsupported-file-type rejection cannot occur. -/
theorem load_document_type_check (p : Parsers)
    (file_path sniffed_mime path_ext : String) :
    (get_file_extension sniffed_mime = none →
      path_ext.toLower ∉ FALLBACK_EXTENSIONS →
      load_document p file_path sniffed_mime path_ext =
        .error (.unsupportedFileType file_path)) ∧
    (∀ e, get_file_extension sniffed_mime = some e →
      load_document p file_path sniffed_mime path_ext =
        dispatchByExt p e ∧
      ∀ q, load_document p file_path sniffed_mime path_ext ≠
        .error (.unsupportedFileType q)) := by
  constructor
  · intro hnone hnotmem
    simp only [load_document, hnone]
    rw [if_pos (Or.inr hnotmem)]
  · intro e he
    have hld : load_document p file_path sniffed_mime path_ext =
        dispatchByExt p e := by
      simp only [load_document, he]
    exact ⟨hld, fun q => hld ▸ dispatchByExt_ne_unsupported p e q⟩

/-- Witness for C3: a PDF MIME type is dispatched to the PDF parser; an
unknown MIME type with an unknown extension is rejected. -/
theorem load_document_type_check_witness :
    (get_file_extension "application/zip" = none →
      ".bin".toLower ∉ FALLBACK_EXTENSIONS →
      load_document ⟨.ok "t", .ok "t", .ok "t", .ok "t", .ok "t"⟩
        "f.bin" "application/zip" ".bin" =
        .error (.unsupportedFileType "f.bin")) ∧
    (∀ e, get_file_extension "application/zip" = some e →
      load_document ⟨.ok "t", .ok "t", .ok "t", .ok "t", .ok "t"⟩
        "f.bin" "application/zip" ".bin" =
        dispatchByExt ⟨.ok "t", .ok "t", .ok "t", .ok "t", .ok "t"⟩ e ∧
      ∀ q, load_document ⟨.ok "t", .ok "t", .ok "t", .ok "t", .ok "t"⟩
        "f.bin" "application/zip" ".bin" ≠
        .error (.unsupportedFileType q)) :=
  load_document_type_check ⟨.ok "t", .ok "t", .ok "t", .ok "t", .ok "t"⟩
    "f.bin" "application/zip" ".bin"

/-- C7 counterexample: when the read-and-write into the freshly created
temporary file fails, `process_uploaded_file` raises but the temporary
file it created persists after the call: `NamedTemporaryFile` has
already created the file and `temp_file_path` was never assigned, so the
`finally` block does not remove it. -/
theorem process_uploaded_file_leaks :
    "t1.txt" ∈ (process_uploaded_file (some ⟨"a.txt", none, 5⟩) []
      "t1.txt" false true 3 (.ok [⟨"hi"⟩])).2 := by
  decide

/-- C7 amended: the temporary file created by `process_uploaded_file` is
removed before the call completes — whatever the outcome, error or
chunks — provided the write into the file succeeded and the unlink
itself succeeds; but when the write into the already-created temporary
file fails, or the unlink fails, the temporary file persists after the
call. -/
theorem process_uploaded_file_cleanup (upload : Option UploadFileMeta)
    (fs : List String) (tmpName : String) (saveOk unlinkOk : Bool)
    (savedSize : Nat) (loadRes : Except String (List Document))
    (hfresh : tmpName ∉ fs) :
    (saveOk = true → unlinkOk = true →
      (process_uploaded_file upload fs tmpName saveOk unlinkOk savedSize
        loadRes).2 = fs ∧
      tmpName ∉ (process_uploaded_file upload fs tmpName saveOk unlinkOk
        savedSize loadRes).2) ∧
    (∀ u, upload = some u → u.filename ≠ "" →
      (saveOk = false ∨ unlinkOk = false) →
      tmpName ∈ (process_uploaded_file upload fs tmpName saveOk unlinkOk
        savedSize loadRes).2) := by
  have hclean : (if tmpName ∈ fs ++ [tmpName] then
      (if true then (fs ++ [tmpName]).erase tmpName else fs ++ [tmpName])
      else fs ++ [tmpName]) = fs := by
    rw [if_pos (by simp), if_pos rfl, List.erase_append_right _ hfresh,
      List.erase_cons_head, List.append_nil]
  constructor
  · intro hs hu
    subst hs
    subst hu
    have hmain :
        (process_uploaded_file upload fs tmpName true true savedSize
          loadRes).2 = fs := by
      unfold process_uploaded_file save_upload_file
      cases upload with
      | none => rfl
      | some u =>
        by_cases hn : u.filename = ""
        · simp [hn]
        · simp only [if_neg hn, if_pos rfl]
          by_cases h0 : savedSize = 0
          · simpa [h0] using hclean
          · simp only [if_neg h0]
            cases loadRes with
            | error m => simpa using hclean
            | ok docs =>
              by_cases hd : docs = []
              · simpa [hd] using hclean
              · simp only [if_neg hd]
                by_cases hc : chunk_documents docs 1000 200 = []
                · simpa [hc] using hclean
                · simpa [hc] using hclean
    exact ⟨hmain, by rw [hmain]; exact hfresh⟩
  · intro u hup hname hfail
    subst hup
    unfold process_uploaded_file save_upload_file
    rcases hfail with hf | hf
    · subst hf
      simp [hname]
    · subst hf
      by_cases hs : saveOk
      · subst hs
        simp only [if_neg hname, if_pos rfl]
        have hcl : (if tmpName ∈ fs ++ [tmpName] then
            (if false then (fs ++ [tmpName]).erase tmpName
             else fs ++ [tmpName])
            else fs ++ [tmpName]) = fs ++ [tmpName] := by
          simp
        by_cases h0 : savedSize = 0
        · simp [h0, hcl]
        · simp only [if_neg h0]
          cases loadRes with
          | error m => simp [hcl]
          | ok docs =>
            by_cases hd : docs = []
            · simp [hd, hcl]
            · simp only [if_neg hd]
              by_cases hc : chunk_documents docs 1000 200 = []
              · simp [hc, hcl]
              · simp [hc, hcl]
      · have hs2 : saveOk = false := by
          cases saveOk
          · rfl
          · exact absurd rfl hs
        subst hs2
        simp [hname]

/-- Witness for C7 amended at a concrete input on which both the write
and the unlink succeed, so the temporary file is cleaned up. -/
theorem process_uploaded_file_cleanup_witness :
    (process_uploaded_file (some ⟨"a.txt", none, 5⟩) ["other.tmp"]
      "t1.txt" true true 3 (.ok [⟨"hi"⟩])).2 = ["other.tmp"] ∧
    "t1.txt" ∉
      (process_uploaded_file (some ⟨"a.txt", none, 5⟩) ["other.tmp"]
        "t1.txt" true true 3 (.ok [⟨"hi"⟩])).2 :=
  (process_uploaded_file_cleanup (some ⟨"a.txt", none, 5⟩) ["other.tmp"]
    "t1.txt" true true 3 (.ok [⟨"hi"⟩]) (by decide)).1 rfl rfl

/-- C6 counterexample: run against an environment where the configured
index already exists with dimension 1536, `get_pinecone_index` issues a
deletion of that index in the external store, refuting the claim that no
code path ever deletes there. -/
theorem get_pinecone_index_deletes :
    StoreOp.deleteIndex "reassesment" ∈
      (get_pinecone_index
        ⟨some "key", "reassesment", true, .ok 1536, true, true⟩).2 := by
  decide

/-- C6 amended: record-level writes never delete or update — the service
never issues a record deletion or update, and `get_pinecone_index` never
upserts — but index setup does delete the whole configured index exactly
when that index exists and reports a dimension different from
`EMBEDDING_DIMENSION`. -/
theorem get_pinecone_index_write_paths (env : PineconeEnv) (n : String) :
    (StoreOp.deleteIndex n ∈ (get_pinecone_index env).2 ↔
      (env.api_key ≠ none ∧ n = env.index_name ∧ env.index_exists = true ∧
        ∃ d, env.stats = .ok d ∧ d ≠ EMBEDDING_DIMENSION)) ∧
    (∀ i, StoreOp.upsertVector i ∉ (get_pinecone_index env).2) := by
  obtain ⟨k, nm, ex, st, aws, gcp⟩ := env
  cases k with
  | none => simp [get_pinecone_index]
  | some key =>
    cases ex with
    | false =>
      cases aws <;> cases gcp <;> simp [get_pinecone_index]
    | true =>
      cases st with
      | error m => simp [get_pinecone_index]
      | ok d =>
        by_cases hd : d = EMBEDDING_DIMENSION
        · simp [get_pinecone_index, hd]
        · simp [get_pinecone_index, hd]

/-- Witness for C6 amended at a concrete environment. -/
theorem get_pinecone_index_write_paths_witness :
    (StoreOp.deleteIndex "reassesment" ∈
      (get_pinecone_index
        ⟨some "key", "reassesment", true, .ok 512, true, true⟩).2 ↔
      (some "key" ≠ (none : Option String) ∧ "reassesment" = "reassesment" ∧
        true = true ∧
        ∃ d, (Except.ok 512 : Except String Nat) = .ok d ∧
          d ≠ EMBEDDING_DIMENSION)) ∧
    (∀ i, StoreOp.upsertVector i ∉
      (get_pinecone_index
        ⟨some "key", "reassesment", true, .ok 512, true, true⟩).2) :=
  get_pinecone_index_write_paths
    ⟨some "key", "reassesment", true, .ok 512, true, true⟩ "reassesment"

/-- Helper: a String's `length` is the length of its character data. -/
theorem str_length_data (s : String) : s.data.length = s.length := by
  cases s
  rfl

/-- Helper: a chunk extracted list returned by `process_file_chunks` is
never empty. -/
theorem process_file_chunks_ok_ne_nil (file : Option UploadFileMeta)
    (extract : Except String (List Document)) (chunks : List Document)
    (h : (process_file_chunks file extract).1 = .ok chunks) :
    chunks ≠ [] := by
  intro hnil
  subst hnil
  unfold process_file_chunks at h
  rcases file with _ | f
  · simp at h
  · simp only at h
    repeat' split at h
    all_goals simp_all
    rename_i hex
    obtain ⟨x, hx, hxt⟩ := hex
    exact hxt (h x hx)

/-- The per-chunk outcome of the upload loop of `upload_slide`: `none`
when chunk `i` is skipped (blank text, failed embedding, or failed
upsert), `some record` when it is processed and upserted. -/
def processedChunk (sd : SlideCreate) (f : UploadFileMeta)
    (embedFn : String → Except String (List Float))
    (uuidGen : Nat → String) (upsertOk : Nat → Bool)
    (timeFn : Nat → String) (total : Nat) (i : Nat) (c : Document) :
    Option SlideInDB :=
  if pyStrip c.page_content = "" then none
  else
    match embedFn c.page_content with
    | .error _ => none
    | .ok emb =>
      if upsertOk i then
        some (mkChunkSlide sd f (uuidGen i ++ "_" ++ toString i) emb
          (timeFn i) i total)
      else none

/-- Helper: the results of the upload loop are exactly the per-chunk
outcomes of the surviving chunks, in order. -/
theorem uploadChunks_results (sd : SlideCreate) (f : UploadFileMeta)
    (embedFn : String → Except String (List Float))
    (uuidGen : Nat → String) (upsertOk : Nat → Bool)
    (timeFn : Nat → String) (total : Nat) (cs : List Document) (i : Nat) :
    (uploadChunks sd f embedFn uuidGen upsertOk timeFn total i cs).results =
      (cs.enumFrom i).filterMap
        (fun p =>
          processedChunk sd f embedFn uuidGen upsertOk timeFn total p.1 p.2) := by
  induction cs generalizing i with
  | nil => simp [uploadChunks]
  | cons c rest ih =>
    by_cases ht : pyStrip c.page_content = ""
    · simp [uploadChunks, processedChunk, ht, ih]
    · cases he : embedFn c.page_content with
      | error m => simp [uploadChunks, processedChunk, ht, he, ih]
      | ok emb =>
        by_cases hu : upsertOk i
        · simp [uploadChunks, processedChunk, ht, he, hu, ih]
        · simp [uploadChunks, processedChunk, ht, he, hu, ih]

/-- Helper: facts about a processed chunk record: every field of the
record is determined by the request data, the chunk, its index and the
oracles. -/
theorem processedChunk_some (sd : SlideCreate) (f : UploadFileMeta)
    (embedFn : String → Except String (List Float))
    (uuidGen : Nat → String) (upsertOk : Nat → Bool)
    (timeFn : Nat → String) (total : Nat) (i : Nat) (c : Document)
    (r : SlideInDB)
    (h : processedChunk sd f embedFn uuidGen upsertOk timeFn total i c
      = some r) :
    r.slide_name = sd.slide_name ++ " (Part " ++ toString (i + 1) ++ ")" ∧
    r.course_name = sd.course_name ∧
    r.subject_name = sd.subject_name ∧
    r.description = sd.description.getD "" ++ " [Part " ++ toString (i + 1)
      ++ " of " ++ toString total ++ "]" ∧
    r.chunk_index = i ∧
    r.total_chunks = total ∧
    r.id = uuidGen i ++ "_" ++ toString i ∧
    embedFn c.page_content = .ok r.embedding := by
  unfold processedChunk at h
  split at h
  · exact absurd h (by simp)
  · split at h
    · exact absurd h (by simp)
    · split at h
      · rename_i emb hemb _
        have hr : mkChunkSlide sd f (uuidGen i ++ "_" ++ toString i) emb
            (timeFn i) i total = r := by
          simpa using h
        subst hr
        simp [mkChunkSlide, hemb]
      · exact absurd h (by simp)

/-- Helper: membership in `enumFrom` gives the index bounds and the
element at the index. -/
theorem mem_enumFrom_facts {α : Type} :
    ∀ (cs : List α) (n : Nat) (p : Nat × α), p ∈ cs.enumFrom n →
      n ≤ p.1 ∧ p.1 < n + cs.length ∧ cs[p.1 - n]? = some p.2
  | [], n, p, h => by simp at h
  | c :: rest, n, p, h => by
    rcases (by simpa using h : p = (n, c) ∨ p ∈ rest.enumFrom (n + 1)) with
      h1 | h2
    · subst h1
      simp
    · obtain ⟨hle, hlt, hget⟩ := mem_enumFrom_facts rest (n + 1) p h2
      refine ⟨by omega, by simp; omega, ?_⟩
      have hidx : p.1 - n = (p.1 - (n + 1)) + 1 := by omega
      rw [hidx]
      simpa using hget

/-- Helper: the indices in `enumFrom` are strictly increasing. -/
theorem enumFrom_pairwise_lt {α : Type} :
    ∀ (cs : List α) (n : Nat),
      (cs.enumFrom n).Pairwise (fun p q => p.1 < q.1)
  | [], _ => by simp
  | c :: rest, n => by
    simp only [List.enumFrom_cons, List.pairwise_cons]
    refine ⟨fun q hq => ?_, enumFrom_pairwise_lt rest (n + 1)⟩
    have := (mem_enumFrom_facts rest (n + 1) q hq).1
    simpa using by omega

/-- Helper: success-path characterisation of `upload_slide`: under valid
request data, successful extraction and a dimension probe of the right
length, the result is the list of per-chunk outcomes of the extracted
chunks, or the no-chunks 400 error when every chunk was skipped. -/
theorem upload_slide_characterisation (sd : SlideCreate)
    (f : UploadFileMeta) (extract : Except String (List Document))
    (embedFn : String → Except String (List Float))
    (uuidGen : Nat → String) (upsertOk : Nat → Bool)
    (timeFn : Nat → String) (testEmb : List Float) (chunks : List Document)
    (hvalid : ¬(sd.slide_name = "" ∨ sd.course_name = ""
      ∨ sd.subject_name = ""))
    (hchunks : (process_file_chunks (some f) extract).1 = .ok chunks)
    (htest : embedFn "test" = .ok testEmb)
    (hdim : testEmb.length = EMBEDDING_DIMENSION) :
    (upload_slide (some sd) (some f) extract embedFn uuidGen upsertOk
      timeFn).result =
      (if ((chunks.enumFrom 0).filterMap
          (fun p => processedChunk sd f embedFn uuidGen upsertOk timeFn
            chunks.length p.1 p.2)).isEmpty
       then .error ⟨400, .noChunksProcessed⟩
       else .ok ((chunks.enumFrom 0).filterMap
          (fun p => processedChunk sd f embedFn uuidGen upsertOk timeFn
            chunks.length p.1 p.2))) := by
  have hne : chunks ≠ [] :=
    process_file_chunks_ok_ne_nil (some f) extract chunks hchunks
  simp only [upload_slide]
  rw [if_neg hvalid]
  simp only [hchunks]
  rw [if_neg hne]
  simp only [htest, hdim]
  rw [if_neg (by simp)]
  simp only [uploadChunks_results]
  split <;> rfl

/-- C4: under valid request data and successful extraction, when the
dimension probe returns an embedding whose length differs from the
expected constant 768 (`EMBEDDING_DIMENSION`), `upload_slide` fails as a
whole with HTTP 500, no vector is upserted into the store, and the only
text ever embedded is the probe string "test" — no chunk is embedded. -/
theorem upload_slide_dimension_check (sd : SlideCreate)
    (f : UploadFileMeta) (extract : Except String (List Document))
    (embedFn : String → Except String (List Float))
    (uuidGen : Nat → String) (upsertOk : Nat → Bool)
    (timeFn : Nat → String) (testEmb : List Float) (chunks : List Document)
    (hvalid : ¬(sd.slide_name = "" ∨ sd.course_name = ""
      ∨ sd.subject_name = ""))
    (hchunks : (process_file_chunks (some f) extract).1 = .ok chunks)
    (htest : embedFn "test" = .ok testEmb)
    (hdim : testEmb.length ≠ EMBEDDING_DIMENSION) :
    upload_slide (some sd) (some f) extract embedFn uuidGen upsertOk
      timeFn =
      ⟨.error ⟨500, .embedInitFailure (some testEmb.length)⟩, [],
        ["test"]⟩ ∧ EMBEDDING_DIMENSION = 768 := by
  have hne : chunks ≠ [] :=
    process_file_chunks_ok_ne_nil (some f) extract chunks hchunks
  refine ⟨?_, rfl⟩
  simp only [upload_slide]
  rw [if_neg hvalid]
  simp only [hchunks]
  rw [if_neg hne]
  simp only [htest]
  rw [if_pos hdim]

/-- Witness for C4: a 700-dimensional probe embedding aborts the upload
with HTTP 500 and no upsert. -/
theorem upload_slide_dimension_check_witness :
    upload_slide (some ⟨"A", "C", "S", none⟩)
      (some ⟨"f.txt", some "text/plain", 5⟩) (.ok [⟨"hello"⟩])
      (fun _ => .ok (List.replicate 700 0.0)) (fun _ => "u")
      (fun _ => true) (fun _ => "t") =
      ⟨.error ⟨500, .embedInitFailure (some (List.replicate 700 (0.0 : Float)).length)⟩,
        [], ["test"]⟩ ∧ EMBEDDING_DIMENSION = 768 :=
  upload_slide_dimension_check ⟨"A", "C", "S", none⟩
    ⟨"f.txt", some "text/plain", 5⟩ (.ok [⟨"hello"⟩])
    (fun _ => .ok (List.replicate 700 0.0)) (fun _ => "u") (fun _ => true)
    (fun _ => "t") (List.replicate 700 0.0) [⟨"hello"⟩] (by decide)
    (by rfl) (by rfl) (by rw [List.length_replicate]; decide)

/-- C5: under valid request data, successful extraction and a valid
dimension probe, each chunk is processed independently: a chunk whose
embedding or upsert fails contributes nothing (it is skipped) while the
remaining chunks still contribute their records, and the upload errors
only when no chunk at all was processed successfully. -/
theorem upload_slide_skips_failed_chunks (sd : SlideCreate)
    (f : UploadFileMeta) (extract : Except String (List Document))
    (embedFn : String → Except String (List Float))
    (uuidGen : Nat → String) (upsertOk : Nat → Bool)
    (timeFn : Nat → String) (testEmb : List Float) (chunks : List Document)
    (hvalid : ¬(sd.slide_name = "" ∨ sd.course_name = ""
      ∨ sd.subject_name = ""))
    (hchunks : (process_file_chunks (some f) extract).1 = .ok chunks)
    (htest : embedFn "test" = .ok testEmb)
    (hdim : testEmb.length = EMBEDDING_DIMENSION) :
    (upload_slide (some sd) (some f) extract embedFn uuidGen upsertOk
      timeFn).result =
      (if ((chunks.enumFrom 0).filterMap
          (fun p => processedChunk sd f embedFn uuidGen upsertOk timeFn
            chunks.length p.1 p.2)).isEmpty
       then .error ⟨400, .noChunksProcessed⟩
       else .ok ((chunks.enumFrom 0).filterMap
          (fun p => processedChunk sd f embedFn uuidGen upsertOk timeFn
            chunks.length p.1 p.2))) :=
  upload_slide_characterisation sd f extract embedFn uuidGen upsertOk
    timeFn testEmb chunks hvalid hchunks htest hdim

/-- Witness for C5: with two chunks where the first chunk's embedding
call fails, the upload still returns the record of the second chunk. -/
theorem upload_slide_skips_failed_chunks_witness :
    (upload_slide (some ⟨"A", "C", "S", none⟩)
      (some ⟨"f.txt", some "text/plain", 5⟩) (.ok [⟨"bad"⟩, ⟨"good"⟩])
      (fun s => if s = "bad" then .error "api down"
        else .ok (List.replicate 768 0.0))
      (fun _ => "u") (fun _ => true) (fun _ => "t")).result =
      (if (([(⟨"bad"⟩ : Document), ⟨"good"⟩].enumFrom 0).filterMap
          (fun p => processedChunk ⟨"A", "C", "S", none⟩
            ⟨"f.txt", some "text/plain", 5⟩
            (fun s => if s = "bad" then .error "api down"
              else .ok (List.replicate 768 0.0))
            (fun _ => "u") (fun _ => true) (fun _ => "t")
            [(⟨"bad"⟩ : Document), ⟨"good"⟩].length p.1 p.2)).isEmpty
       then .error ⟨400, .noChunksProcessed⟩
       else .ok (([(⟨"bad"⟩ : Document), ⟨"good"⟩].enumFrom 0).filterMap
          (fun p => processedChunk ⟨"A", "C", "S", none⟩
            ⟨"f.txt", some "text/plain", 5⟩
            (fun s => if s = "bad" then .error "api down"
              else .ok (List.replicate 768 0.0))
            (fun _ => "u") (fun _ => true) (fun _ => "t")
            [(⟨"bad"⟩ : Document), ⟨"good"⟩].length p.1 p.2))) :=
  upload_slide_skips_failed_chunks ⟨"A", "C", "S", none⟩
    ⟨"f.txt", some "text/plain", 5⟩ (.ok [⟨"bad"⟩, ⟨"good"⟩])
    (fun s => if s = "bad" then .error "api down"
      else .ok (List.replicate 768 0.0))
    (fun _ => "u") (fun _ => true) (fun _ => "t")
    (List.replicate 768 0.0) [⟨"bad"⟩, ⟨"good"⟩] (by decide) (by rfl)
    (by rfl) (by rw [List.length_replicate]; decide)

set_option maxRecDepth 4000 in
/-- C1 counterexample: a successful single-chunk upload returns a record
whose `slide_name` and `description` are not the request values
duplicated unchanged: the request slide name "A" becomes "A (Part 1)" and
the empty request description becomes " [Part 1 of 1]". -/
theorem upload_slide_fields_not_unchanged :
    ((upload_slide (some ⟨"A", "C", "S", none⟩)
      (some ⟨"f.txt", some "text/plain", 5⟩) (.ok [⟨"hello"⟩])
      (fun _ => .ok (List.replicate 768 0.0)) (fun _ => "u")
      (fun _ => true) (fun _ => "t")).result.map
        (fun rs => rs.map (fun r => (r.slide_name, r.description))))
      = .ok [("A (Part 1)", " [Part 1 of 1]")] ∧
    ("A (Part 1)" : String) ≠ "A" ∧ (" [Part 1 of 1]" : String) ≠ "" := by
  refine ⟨by rfl, by decide, by decide⟩

/-- Helper: chunk ids of the form `uuid ++ "_" ++ index` are injective in
the index as long as the uuid strings all have the same length and are
pairwise distinct on the indices in range. -/
theorem chunk_id_inj (u : Nat → String) (N : Nat)
    (hlen : ∀ k, k < N → (u k).length = 36)
    (hinj : ∀ k, k < N → ∀ l, l < N → u k = u l → k = l)
    (i j : Nat) (hi : i < N) (hj : j < N)
    (h : u i ++ "_" ++ toString i = u j ++ "_" ++ toString j) : i = j := by
  have hd := congrArg String.data h
  simp only [String.data_append] at hd
  rw [List.append_assoc, List.append_assoc] at hd
  have hlen2 : (u i).data.length = (u j).data.length := by
    rw [str_length_data, str_length_data, hlen i hi, hlen j hj]
  exact hinj i hi j hj (String.ext (List.append_inj_left hd hlen2))

/-- C1 amended: each record of a successful upload of `N` extracted
chunks carries the course and subject names unchanged, the request slide
name suffixed with " (Part i+1)", the request description (or "")
suffixed with " [Part i+1 of N]", a chunk index `i` with `i < N`, a total
chunk count `N`, an id generated from the fresh per-chunk UUID and the
index, and the embedding returned by the embedding oracle for that
chunk's text; assuming the UUID generator returns fixed-length pairwise
distinct strings, all returned ids are pairwise distinct. -/
theorem upload_slide_chunk_records (sd : SlideCreate)
    (f : UploadFileMeta) (extract : Except String (List Document))
    (embedFn : String → Except String (List Float))
    (uuidGen : Nat → String) (upsertOk : Nat → Bool)
    (timeFn : Nat → String) (testEmb : List Float)
    (chunks : List Document) (results : List SlideInDB)
    (hvalid : ¬(sd.slide_name = "" ∨ sd.course_name = ""
      ∨ sd.subject_name = ""))
    (hchunks : (process_file_chunks (some f) extract).1 = .ok chunks)
    (htest : embedFn "test" = .ok testEmb)
    (hdim : testEmb.length = EMBEDDING_DIMENSION)
    (hres : (upload_slide (some sd) (some f) extract embedFn uuidGen
      upsertOk timeFn).result = .ok results)
    (hulen : ∀ k, k < chunks.length → (uuidGen k).length = 36)
    (huinj : ∀ k, k < chunks.length → ∀ l, l < chunks.length →
      uuidGen k = uuidGen l → k = l) :
    (∀ r ∈ results,
      r.slide_name = sd.slide_name ++ " (Part "
        ++ toString (r.chunk_index + 1) ++ ")" ∧
      r.course_name = sd.course_name ∧
      r.subject_name = sd.subject_name ∧
      r.description = sd.description.getD "" ++ " [Part "
        ++ toString (r.chunk_index + 1) ++ " of "
        ++ toString chunks.length ++ "]" ∧
      r.chunk_index < chunks.length ∧
      r.total_chunks = chunks.length ∧
      r.id = uuidGen r.chunk_index ++ "_" ++ toString r.chunk_index ∧
      ∃ c, chunks[r.chunk_index]? = some c ∧
        embedFn c.page_content = .ok r.embedding) ∧
    results.Pairwise (fun a b => a.id ≠ b.id) := by
  rw [upload_slide_characterisation sd f extract embedFn uuidGen upsertOk
    timeFn testEmb chunks hvalid hchunks htest hdim] at hres
  by_cases hE : ((chunks.enumFrom 0).filterMap
      (fun p => processedChunk sd f embedFn uuidGen upsertOk timeFn
        chunks.length p.1 p.2)).isEmpty
  · rw [if_pos hE] at hres
    exact absurd hres (by simp)
  · rw [if_neg hE] at hres
    have hPr : results = (chunks.enumFrom 0).filterMap
        (fun p => processedChunk sd f embedFn uuidGen upsertOk timeFn
          chunks.length p.1 p.2) := by
      simpa using hres.symm
    subst hPr
    have hpart1 : ∀ r ∈ (chunks.enumFrom 0).filterMap
        (fun p => processedChunk sd f embedFn uuidGen upsertOk timeFn
          chunks.length p.1 p.2),
        r.slide_name = sd.slide_name ++ " (Part "
          ++ toString (r.chunk_index + 1) ++ ")" ∧
        r.course_name = sd.course_name ∧
        r.subject_name = sd.subject_name ∧
        r.description = sd.description.getD "" ++ " [Part "
          ++ toString (r.chunk_index + 1) ++ " of "
          ++ toString chunks.length ++ "]" ∧
        r.chunk_index < chunks.length ∧
        r.total_chunks = chunks.length ∧
        r.id = uuidGen r.chunk_index ++ "_" ++ toString r.chunk_index ∧
        ∃ c, chunks[r.chunk_index]? = some c ∧
          embedFn c.page_content = .ok r.embedding := by
      intro r hr
      rw [List.mem_filterMap] at hr
      obtain ⟨p, hp, hpc⟩ := hr
      obtain ⟨hsn, hcn, hsub, hdesc, hci, htc, hid, hemb⟩ :=
        processedChunk_some sd f embedFn uuidGen upsertOk timeFn
          chunks.length p.1 p.2 r hpc
      obtain ⟨hle, hlt, hget⟩ := mem_enumFrom_facts chunks 0 p hp
      rw [hci]
      refine ⟨hsn, hcn, hsub, hdesc, by omega, htc, hid,
        ⟨p.2, ?_, hemb⟩⟩
      simpa using hget
    refine ⟨hpart1, ?_⟩
    have hpair1 : ((chunks.enumFrom 0).filterMap
        (fun p => processedChunk sd f embedFn uuidGen upsertOk timeFn
          chunks.length p.1 p.2)).Pairwise
        (fun a b => a.chunk_index < b.chunk_index) := by
      refine List.Pairwise.filterMap _ ?_ (enumFrom_pairwise_lt chunks 0)
      intro p q hpq b hb bq hbq
      rw [Option.mem_def] at hb hbq
      have h1 := (processedChunk_some sd f embedFn uuidGen upsertOk timeFn
        chunks.length p.1 p.2 b hb).2.2.2.2.1
      have h2 := (processedChunk_some sd f embedFn uuidGen upsertOk timeFn
        chunks.length q.1 q.2 bq hbq).2.2.2.2.1
      rw [h1, h2]
      exact hpq
    refine hpair1.imp_of_mem ?_
    intro a b ha hb hlt heq
    obtain ⟨-, -, -, -, hba, -, hida, -⟩ := hpart1 a ha
    obtain ⟨-, -, -, -, hbb, -, hidb, -⟩ := hpart1 b hb
    have := chunk_id_inj uuidGen chunks.length hulen huinj a.chunk_index
      b.chunk_index hba hbb (by rw [← hida, ← hidb, heq])
    omega

/-- Concrete request data for exercising the upload pipeline. -/
def c1sd : SlideCreate := ⟨"A", "C", "S", some "D"⟩

/-- Concrete upload-file record for exercising the upload pipeline. -/
def c1file : UploadFileMeta := ⟨"f.txt", some "text/plain", 5⟩

/-- Concrete UUID oracle: two fixed 36-character strings. -/
def c1uuid : Nat → String := fun i =>
  if i = 0 then "aaaaaaaaaaaaaaaaaaaaaaaaaaaaaaaaaaaa"
  else "bbbbbbbbbbbbbbbbbbbbbbbbbbbbbbbbbbbb"

/-- Concrete embedding oracle: a constant 768-dimensional vector. -/
def c1embed : String → Except String (List Float) :=
  fun _ => .ok (List.replicate 768 0.0)

/-- The records returned by the concrete two-chunk upload. -/
def c1results : List SlideInDB :=
  [mkChunkSlide c1sd c1file
    ("aaaaaaaaaaaaaaaaaaaaaaaaaaaaaaaaaaaa" ++ "_" ++ toString 0)
    (List.replicate 768 0.0) "t" 0 2,
   mkChunkSlide c1sd c1file
    ("bbbbbbbbbbbbbbbbbbbbbbbbbbbbbbbbbbbb" ++ "_" ++ toString 1)
    (List.replicate 768 0.0) "t" 1 2]

set_option maxRecDepth 8000 in
/-- Witness for C1 amended at a concrete two-chunk upload. -/
theorem upload_slide_chunk_records_witness :
    (∀ r ∈ c1results,
      r.slide_name = c1sd.slide_name ++ " (Part "
        ++ toString (r.chunk_index + 1) ++ ")" ∧
      r.course_name = c1sd.course_name ∧
      r.subject_name = c1sd.subject_name ∧
      r.description = c1sd.description.getD "" ++ " [Part "
        ++ toString (r.chunk_index + 1) ++ " of "
        ++ toString ([(⟨"hello"⟩ : Document), ⟨"world"⟩].length) ++ "]" ∧
      r.chunk_index < [(⟨"hello"⟩ : Document), ⟨"world"⟩].length ∧
      r.total_chunks = [(⟨"hello"⟩ : Document), ⟨"world"⟩].length ∧
      r.id = c1uuid r.chunk_index ++ "_" ++ toString r.chunk_index ∧
      ∃ c, [(⟨"hello"⟩ : Document), ⟨"world"⟩][r.chunk_index]? = some c ∧
        c1embed c.page_content = .ok r.embedding) ∧
    c1results.Pairwise (fun a b => a.id ≠ b.id) :=
  upload_slide_chunk_records c1sd c1file (.ok [⟨"hello"⟩, ⟨"world"⟩])
    c1embed c1uuid (fun _ => true) (fun _ => "t")
    (List.replicate 768 0.0) [⟨"hello"⟩, ⟨"world"⟩] c1results
    (by decide) (by rfl) (by rfl)
    (by rw [List.length_replicate]; decide)
    (by rfl) (by decide) (by decide)

/-- Helper (fuel induction): every window produced by `splitWindows` has
at most `size` characters, provided the step is positive. -/
theorem splitWindows_le_aux (size step : Nat) (hstep : 0 < step) :
    ∀ (n : Nat) (s : List Char), s.length ≤ n →
      ∀ c ∈ splitWindows size step s, c.length ≤ size := by
  intro n
  induction n with
  | zero =>
    intro s hs c hc
    have : s = [] := List.eq_nil_of_length_eq_zero (by omega)
    subst this
    rw [splitWindows] at hc
    simp at hc
  | succ n ih =>
    intro s hs c hc
    rw [splitWindows] at hc
    by_cases he : s.isEmpty
    · simp [he] at hc
    · rw [if_neg he] at hc
      by_cases hb : s.length ≤ size ∨ step = 0
      · rw [if_pos hb] at hc
        simp at hc
        subst hc
        rcases hb with hb | hb
        · exact hb
        · omega
      · rw [if_neg hb] at hc
        simp only [not_or, Nat.not_le] at hb
        rcases List.mem_cons.mp hc with hc1 | hc2
        · subst hc1
          simp [List.length_take]
        · refine ih (s.drop step) ?_ c hc2
          simp only [List.length_drop]
          omega

/-- Helper: every window produced by `splitWindows` has at most `size`
characters, provided the step is positive. -/
theorem splitWindows_le (size step : Nat) (hstep : 0 < step)
    (s : List Char) : ∀ c ∈ splitWindows size step s, c.length ≤ size :=
  splitWindows_le_aux size step hstep s.length s (Nat.le_refl _)

/-- Helper (fuel induction): consecutive windows of `splitWindows`
overlap: dropping the first `step` characters of a window leaves at most
`size - step` characters, and that remainder is a prefix of the next
window. -/
theorem splitWindows_overlap_aux (size step : Nat) (hstep : 0 < step)
    (hss : step ≤ size) :
    ∀ (n : Nat) (s : List Char) (i : Nat), s.length ≤ n →
      i + 1 < (splitWindows size step s).length →
      (((splitWindows size step s).getD i []).drop step <+:
        (splitWindows size step s).getD (i + 1) [] ∧
      (((splitWindows size step s).getD i []).drop step).length
        ≤ size - step) := by
  intro n
  induction n with
  | zero =>
    intro s i hs hlen
    have : s = [] := List.eq_nil_of_length_eq_zero (by omega)
    subst this
    rw [splitWindows] at hlen
    simp at hlen
  | succ n ih =>
    intro s i hs hlen
    rw [splitWindows] at hlen ⊢
    by_cases he : s.isEmpty
    · rw [if_pos he] at hlen
      simp at hlen
    · rw [if_neg he] at hlen ⊢
      by_cases hb : s.length ≤ size ∨ step = 0
      · rw [if_pos hb] at hlen
        simp at hlen
      · rw [if_neg hb] at hlen ⊢
        simp only [not_or, Nat.not_le] at hb
        obtain ⟨hgt, hstep0⟩ := hb
        cases i with
        | zero =>
          simp only [List.getD_cons_zero, List.getD_cons_succ]
          have hsum : step + (size - step) = size := by omega
          have hts : (s.take size).drop step =
              (s.drop step).take (size - step) := by
            rw [List.take_drop, hsum]
          have htlen : (s.drop step).length = s.length - step := by
            simp
          have htpos : ¬ (s.drop step).isEmpty := by
            rw [List.isEmpty_iff]
            intro hnil
            have := congrArg List.length hnil
            simp at this
            omega
          constructor
          · rw [hts]
            rw [splitWindows, if_neg htpos]
            by_cases hb2 : (s.drop step).length ≤ size ∨ step = 0
            · rw [if_pos hb2]
              simp only [List.getD_cons_zero]
              exact ⟨(s.drop step).drop (size - step),
                List.take_append_drop _ _⟩
            · rw [if_neg hb2]
              simp only [List.getD_cons_zero]
              have : (s.drop step).take (size - step) =
                  ((s.drop step).take size).take (size - step) := by
                rw [List.take_take]
                congr 1
                omega
              rw [this]
              exact ⟨((s.drop step).take size).drop (size - step),
                List.take_append_drop _ _⟩
          · rw [hts]
            simp only [List.length_take]
            omega
        | succ i =>
          simp only [List.getD_cons_succ]
          refine ih (s.drop step) i ?_ ?_
          · simp only [List.length_drop]
            omega
          · simp only [List.length_cons] at hlen
            omega

/-- C8: `chunk_documents` at the fixed configuration values 1000 and 200
(characters, measured by `len`) produces only chunks of at most 1000
characters, and within each document consecutive windows overlap: the
part of a window after its first 800 characters has at most 200
characters and is a prefix of the next window. -/
theorem chunk_documents_windows (docs : List Document) :
    (∀ c ∈ chunk_documents docs 1000 200, c.page_content.length ≤ 1000) ∧
    (∀ d ∈ docs, ∀ i,
      i + 1 < (splitWindows 1000 800 d.page_content.data).length →
      (((splitWindows 1000 800 d.page_content.data).getD i []).drop 800 <+:
        (splitWindows 1000 800 d.page_content.data).getD (i + 1) [] ∧
      (((splitWindows 1000 800 d.page_content.data).getD i []).drop 800).length
        ≤ 200)) := by
  constructor
  · intro c hc
    unfold chunk_documents at hc
    rw [List.mem_flatMap] at hc
    obtain ⟨d, hd, hc⟩ := hc
    rw [List.mem_map] at hc
    obtain ⟨cs, hcs, hceq⟩ := hc
    subst hceq
    simpa using splitWindows_le 1000 800 (by omega)
      d.page_content.data cs hcs
  · intro d hd i hlen
    exact splitWindows_overlap_aux 1000 800 (by omega) (by omega)
      d.page_content.data.length d.page_content.data i (Nat.le_refl _) hlen

/-- Witness for C8 at a concrete document list. -/
theorem chunk_documents_windows_witness :
    (∀ c ∈ chunk_documents [(⟨"ab"⟩ : Document)] 1000 200,
      c.page_content.length ≤ 1000) ∧
    (∀ d ∈ [(⟨"ab"⟩ : Document)], ∀ i,
      i + 1 < (splitWindows 1000 800 d.page_content.data).length →
      (((splitWindows 1000 800 d.page_content.data).getD i []).drop 800 <+:
        (splitWindows 1000 800 d.page_content.data).getD (i + 1) [] ∧
      (((splitWindows 1000 800 d.page_content.data).getD i []).drop 800).length
        ≤ 200)) :=
  chunk_documents_windows [(⟨"ab"⟩ : Document)]
